import Mathlib

/-!
Verification of the record-generation logic of the dotloop-reporter demo-data
scripts (src/generate_demo_data.py and src/generate_demo_soldtest.py).

Modelling conventions, shared by both variants:

* Randomness: every call to the random module in `generate_record` is modelled
  as a field of a `Choices` structure; the `Valid` predicate records exactly
  the range each draw comes from (`random.choice xs` gives membership in `xs`,
  `random.randint a b` gives a value in the closed interval `[a, b]`,
  `random.random() < p` gives an arbitrary Bool).
* Dates: a Python `datetime.date` is its proleptic-Gregorian ordinal, an
  integer number of days; `date + timedelta(days = k)` is integer addition.
  `datetime.date.today()` is the integer parameter `today`.  A date field
  holding the empty string is `none`, a field holding a formatted date `d`
  is `some d` (strftime is injective on dates, so this loses nothing).
* Money: Python float arithmetic on the sampled whole-dollar prices is
  modelled exactly over `ℚ` (the literals 0.03, 0.01, 0.20, 0.025, 0.05 are
  exact rationals here).
* Strings: addresses are built as `List Char`; Python `str.split(sep)` is
  `pySplit`, `str.split(sep, 1)` is `pySplitMax1`, and `str(n)` for a
  natural number is `natChars n`.
* The returned dict is the `Record` structure.  Columns whose value is a
  constant ("USA", "GA", "Fulton", "Broker", "false", remarks, blanks) and
  the purely decorative pass-through draws (bathrooms, bedrooms, lot size,
  square footage, year built, MLS number, HOA dues, extra zip draws) are
  omitted: no claim mentions them and they carry no logic.  The only
  operation in the Python dict construction that could fail is the address
  splitting used for the street-name columns, so `generate_record` is an
  `Option Record` that is `none` exactly when that indexing would raise.
-/

namespace DotloopDemo

/-- Embedding of Python str.split(sep) on character lists: splits on every
occurrence of the separator, keeping empty chunks, and yields one chunk even
for the empty string. -/
def pySplit (sep : Char) : List Char → List (List Char)
  | [] => [[]]
  | ch :: cs =>
    if ch = sep then [] :: pySplit sep cs
    else
      match pySplit sep cs with
      | [] => [[ch]]
      | w :: ws => (ch :: w) :: ws

/-- Embedding of Python str.split(sep, 1): splits at the first occurrence of
the separator only. -/
def pySplitMax1 (sep : Char) : List Char → List (List Char)
  | [] => [[]]
  | ch :: cs =>
    if ch = sep then [[], cs]
    else
      match pySplitMax1 sep cs with
      | [] => [[ch]]
      | w :: ws => (ch :: w) :: ws

/-- Embedding of Python str(n) for a natural number: its decimal digits.
Fuel-structured so that it unfolds by definitional reduction; `n + 1` units
of fuel always suffice. -/
def natCharsAux : ℕ → ℕ → List Char → List Char
  | 0, _, acc => acc
  | fuel + 1, n, acc =>
    if n < 10 then Nat.digitChar n :: acc
    else natCharsAux fuel (n / 10) (Nat.digitChar (n % 10) :: acc)

/-- Decimal digit string of a natural number, as a character list. -/
def natChars (n : ℕ) : List Char := natCharsAux (n + 1) n []

/-! ## Variant A: src/generate_demo_data.py (brokerage, historical bias) -/

namespace Brokerage

/-- Agent roster of generate_demo_data.py. -/
def AGENTS : List String :=
  ["Sarah Miller", "James Wilson", "Emily Chen", "Michael Brown", "Jessica Davis",
   "David Martinez", "Jennifer Taylor", "Robert Anderson", "Lisa Thomas", "William Jackson",
   "Elizabeth White", "Christopher Harris", "Ashley Martin", "Matthew Thompson", "Amanda Garcia"]

/-- Lead-source roster. -/
def LEAD_SOURCES : List String :=
  ["Zillow", "Referral", "Open House", "Sphere of Influence", "Facebook Ads",
   "Realtor.com", "Walk-in", "Direct Mail"]

/-- Property-type roster. -/
def PROPERTY_TYPES : List String :=
  ["Single Family", "Condo", "Townhouse", "Multi-Family", "Land"]

/-- City roster. -/
def CITIES : List String :=
  ["Atlanta", "Marietta", "Roswell", "Alpharetta", "Sandy Springs", "Decatur",
   "Smyrna", "Woodstock", "Kennesaw", "Lawrenceville"]

/-- Weighted status roster (repetitions give the weights). -/
def STATUSES : List String :=
  ["Sold", "Sold", "Sold", "Sold", "Active Listings", "Active Listings",
   "Under Contract", "Under Contract", "Archived"]

/-- Street-name roster used for the synthesized address. -/
def STREET_NAMES : List String :=
  ["Main St", "Oak Ave", "Maple Dr", "Pine Ln", "Cedar Blvd", "Elm St",
   "Washington Ave", "Park Pl", "Lakeview Dr", "Hillcrest Rd"]

/-- END_DATE = today + 90 days. -/
def END_DATE (today : ℤ) : ℤ := today + 90

/-- START_DATE = END_DATE - 450 days. -/
def START_DATE (today : ℤ) : ℤ := END_DATE today - 450

/-- One record worth of random draws made by generate_record, in program
order.  The ranges each draw is taken from are recorded by `Valid` below. -/
structure Choices where
  status : String
  propType : String
  city : String
  agent : String
  leadSource : String
  /-- the draw random.randint(lo, hi) for the base price, in thousands;
  lo and hi depend on propType (see `priceLo`, `priceHi`) -/
  basePriceK : ℕ
  /-- random.random() < 0.7 : apply psychological pricing -/
  psych : Bool
  /-- random.random() < 0.6 : original price carries a markup -/
  origMarkup : Bool
  /-- random.randint(5, 50), markup in thousands -/
  markupK : ℕ
  /-- random.randint(0, days) inside random_date(START_DATE, END_DATE - 60);
  the interval length is (END_DATE - 60) - START_DATE = 390 days -/
  listingOffset : ℕ
  /-- random.randint(5, 90) -/
  daysOnMarket : ℕ
  /-- random.randint(30, 60) -/
  daysToClose : ℕ
  /-- random.random() < 0.15 : double ended -/
  doubleEnded : Bool
  /-- random.random() < 0.5 : commission goes to the buy side -/
  buySideDraw : Bool
  /-- random.randint(100, 9999) -/
  streetNum : ℕ
  streetName : String

/-- Lower bound (in thousands) of the base-price range for a property type,
mirroring the if/elif chain of the source. -/
def priceLo (t : String) : ℕ :=
  if t = "Single Family" then 350
  else if t = "Condo" then 200
  else if t = "Townhouse" then 300
  else if t = "Multi-Family" then 450
  else if t = "Land" then 50
  else 300

/-- Upper bound (in thousands) of the base-price range for a property type. -/
def priceHi (t : String) : ℕ :=
  if t = "Single Family" then 1500
  else if t = "Condo" then 600
  else if t = "Townhouse" then 750
  else if t = "Multi-Family" then 1200
  else if t = "Land" then 400
  else 800

/-- The draws a run of the Python generator can actually produce. -/
def Choices.Valid (c : Choices) : Prop :=
  c.status ∈ STATUSES ∧ c.propType ∈ PROPERTY_TYPES ∧ c.city ∈ CITIES ∧
  c.agent ∈ AGENTS ∧ c.leadSource ∈ LEAD_SOURCES ∧
  priceLo c.propType ≤ c.basePriceK ∧ c.basePriceK ≤ priceHi c.propType ∧
  5 ≤ c.markupK ∧ c.markupK ≤ 50 ∧
  c.listingOffset ≤ 390 ∧
  5 ≤ c.daysOnMarket ∧ c.daysOnMarket ≤ 90 ∧
  30 ≤ c.daysToClose ∧ c.daysToClose ≤ 60 ∧
  100 ≤ c.streetNum ∧ c.streetNum ≤ 9999 ∧
  c.streetName ∈ STREET_NAMES

instance (c : Choices) : Decidable (Choices.Valid c) := by
  unfold Choices.Valid; infer_instance

/-- base_price = (draw in thousands) * 1000. -/
def base_price (c : Choices) : ℤ := (c.basePriceK : ℤ) * 1000

/-- Psychological pricing: with the 0.7-probability draw, subtract 100. -/
def price (c : Choices) : ℤ :=
  if c.psych then base_price c - 100 else base_price c

/-- Original price: with the 0.6-probability draw, add the markup. -/
def original_price (c : Choices) : ℤ :=
  if c.origMarkup then price c + (c.markupK : ℤ) * 1000 else price c

/-- listing_date = random_date(START_DATE, END_DATE - timedelta(days=60)). -/
def listing_date (today : ℤ) (c : Choices) : ℤ :=
  START_DATE today + (c.listingOffset : ℤ)

/-- Result of the status-dependent date block: the possibly corrected status
together with offer, closing and contract dates (none = empty string). -/
structure DateInfo where
  status : String
  offer : Option ℤ
  closing : Option ℤ
  contract : Option ℤ

/-- The dates block of generate_record: statuses needing an offer get
offer = listing + days_on_market and contract = offer; Sold and
Under Contract get closing = offer + days_to_close; a Sold whose computed
closing is after today is downgraded to Under Contract with the closing
date kept as the projected closing. -/
def statusDates (today : ℤ) (c : Choices) : DateInfo :=
  if c.status = "Under Contract" ∨ c.status = "Sold" ∨ c.status = "Archived" then
    let offer := listing_date today c + (c.daysOnMarket : ℤ)
    if c.status = "Sold" then
      let closing := offer + (c.daysToClose : ℤ)
      if today < closing then
        { status := "Under Contract", offer := some offer,
          closing := some closing, contract := some offer }
      else
        { status := "Sold", offer := some offer,
          closing := some closing, contract := some offer }
    else if c.status = "Under Contract" then
      { status := "Under Contract", offer := some offer,
        closing := some (offer + (c.daysToClose : ℤ)), contract := some offer }
    else
      { status := c.status, offer := some offer, closing := none,
        contract := some offer }
  else
    { status := c.status, offer := none, closing := none, contract := none }

/-- Commission pair (buy side, sell side): both sides at price * 0.03 when
double ended, otherwise exactly one side chosen by the coin flip. -/
def commission_pair (c : Choices) : ℚ × ℚ :=
  if c.doubleEnded then ((price c : ℚ) * 0.03, (price c : ℚ) * 0.03)
  else if c.buySideDraw then ((price c : ℚ) * 0.03, 0)
  else (0, (price c : ℚ) * 0.03)

/-- Character list of the synthesized address
f-string street_num SP street_name ", " city ", GA 30000". -/
def addressChars (c : Choices) : List Char :=
  natChars c.streetNum ++ ' ' :: (c.streetName.data ++ (", ".data ++ (c.city.data ++ ", GA 30000".data)))

/-- The street-name column value address.split(" ")[1] + " " + address.split(" ")[2];
none when either index would raise IndexError. -/
def streetNameField (c : Choices) : Option String :=
  match (pySplit ' ' (addressChars c))[1]?, (pySplit ' ' (addressChars c))[2]? with
  | some w1, some w2 => some (String.mk w1 ++ " " ++ String.mk w2)
  | _, _ => none

/-- The generated record (the returned dict), restricted to the non-constant
columns; see the module docstring for the omitted boilerplate columns. -/
structure Record where
  loopView : ℤ
  loopId : ℤ
  loopName : String
  loopStatus : String
  complianceStatus : String
  tags : String
  createdDate : ℤ
  closingDate : Option ℤ
  expirationDate : ℤ
  listingDate : ℤ
  joinedDate : ℤ
  offerDate : Option ℤ
  address : String
  price : ℤ
  agents : String
  propCity : String
  streetNameCol : String
  streetNumber : ℕ
  contractClosingDate : Option ℤ
  contractAgreementDate : Option ℤ
  earnestMoney : ℚ
  purchasePrice : ℤ
  buySideComm : ℚ
  sellSideComm : ℚ
  totalComm : ℚ
  currentPrice : ℤ
  originalPrice : ℤ
  propType : String
  referralPct : String
  referralSource : String
  netToOffice : ℚ

/-- Assembly of the returned dict, given the successfully computed
street-name column value. -/
def mkRecord (today loopId : ℤ) (c : Choices) (sn : String) : Record :=
  let d := statusDates today c
  let bs := commission_pair c
  let total := bs.1 + bs.2
  { loopView := loopId
    loopId := loopId
    loopName := String.mk (addressChars c)
    loopStatus := d.status
    complianceStatus := if d.status = "Sold" then "Approved" else "Pending"
    tags := if 800000 < price c then "Top Producer" else ""
    createdDate := listing_date today c
    closingDate := d.closing
    expirationDate := listing_date today c + 180
    listingDate := listing_date today c
    joinedDate := listing_date today c
    offerDate := d.offer
    address := String.mk (addressChars c)
    price := price c
    agents := c.agent
    propCity := c.city
    streetNameCol := sn
    streetNumber := c.streetNum
    contractClosingDate := d.closing
    contractAgreementDate := d.contract
    earnestMoney := (price c : ℚ) * 0.01
    purchasePrice := price c
    buySideComm := bs.1
    sellSideComm := bs.2
    totalComm := total
    currentPrice := price c
    originalPrice := original_price c
    propType := c.propType
    referralPct := if c.leadSource = "Referral" then "25%" else "0%"
    referralSource := c.leadSource
    netToOffice := total * 0.20 }

/-- generate_record: the only fallible step of the Python function is the
address splitting for the street-name column, so the result is some record
exactly when that indexing succeeds. -/
def generate_record (today loopId : ℤ) (c : Choices) : Option Record :=
  (streetNameField c).map (mkRecord today loopId c)

end Brokerage

/-! ## Variant B: src/generate_demo_soldtest.py (sold test, future pipeline) -/

namespace SoldTest

/-- Agent roster of generate_demo_soldtest.py (same fifteen names). -/
def AGENTS : List String := Brokerage.AGENTS

/-- Lead-source roster (two extra entries compared to variant A). -/
def LEAD_SOURCES : List String :=
  ["Zillow", "Referral", "Open House", "Sphere of Influence", "Facebook Ads",
   "Realtor.com", "Walk-in", "Direct Mail", "Past Client", "Agent Website"]

/-- Property-type roster. -/
def PROPERTY_TYPES : List String :=
  ["SingleFamily", "Condo", "Townhouse", "MultiFamily", "Land"]

/-- City roster. -/
def CITIES : List String :=
  ["Boston", "Cambridge", "Somerville", "Brookline", "Newton", "Quincy",
   "Waltham", "Medford", "Malden", "Arlington"]

/-- Weighted status roster; note the singular "Active Listing" here. -/
def STATUSES : List String :=
  ["Sold", "Sold", "Sold", "Sold", "Active Listing", "Active Listing",
   "Under Contract", "Under Contract", "Archived"]

/-- Street-name roster; "Broadway" is a single word here. -/
def STREET_NAMES : List String :=
  ["Beacon St", "Commonwealth Ave", "Boylston St", "Tremont St", "Washington St",
   "Massachusetts Ave", "Cambridge St", "Broadway", "Main St", "High St"]

/-- END_DATE = today + 90 days. -/
def END_DATE (today : ℤ) : ℤ := today + 90

/-- START_DATE = END_DATE - 450 days. -/
def START_DATE (today : ℤ) : ℤ := END_DATE today - 450

/-- One record worth of random draws made by generate_record, in program
order; ranges are recorded by `Valid`. -/
structure Choices where
  status : String
  propType : String
  city : String
  agent : String
  leadSource : String
  /-- the draw random.randint(lo, hi) for the base price, in thousands -/
  basePriceK : ℕ
  /-- random.random() < 0.7 -/
  psych : Bool
  /-- random.random() < 0.6 -/
  origMarkup : Bool
  /-- random.randint(10, 100), markup in thousands -/
  markupK : ℕ
  /-- random.randint(0, 390) inside random_date(START_DATE, END_DATE - 60) -/
  listingOffset : ℕ
  /-- random.randint(15, 85), only used by the future-pipeline branch -/
  daysToFutureClose : ℕ
  /-- random.randint(5, 90), only used by the Sold/Archived branch -/
  daysOnMarket : ℕ
  /-- random.randint(30, 60), only used by the Sold/Archived branch -/
  daysToClose : ℕ
  /-- random.random() < 0.10 -/
  doubleEnded : Bool
  /-- random.random() < 0.5 -/
  buySideDraw : Bool
  /-- random.randint(1, 999) -/
  streetNum : ℕ
  streetName : String
  /-- random.randint(10, 99), the zip suffix inside the address f-string -/
  zipDraw : ℕ

/-- Lower bound (in thousands) of the base-price range per property type. -/
def priceLo (t : String) : ℕ :=
  if t = "SingleFamily" then 450
  else if t = "Condo" then 300
  else if t = "Townhouse" then 400
  else if t = "MultiFamily" then 600
  else if t = "Land" then 100
  else 300

/-- Upper bound (in thousands) of the base-price range per property type. -/
def priceHi (t : String) : ℕ :=
  if t = "SingleFamily" then 2500
  else if t = "Condo" then 900
  else if t = "Townhouse" then 1200
  else if t = "MultiFamily" then 3000
  else if t = "Land" then 800
  else 800

/-- The draws a run of the Python generator can actually produce. -/
def Choices.Valid (c : Choices) : Prop :=
  c.status ∈ STATUSES ∧ c.propType ∈ PROPERTY_TYPES ∧ c.city ∈ CITIES ∧
  c.agent ∈ AGENTS ∧ c.leadSource ∈ LEAD_SOURCES ∧
  priceLo c.propType ≤ c.basePriceK ∧ c.basePriceK ≤ priceHi c.propType ∧
  10 ≤ c.markupK ∧ c.markupK ≤ 100 ∧
  c.listingOffset ≤ 390 ∧
  15 ≤ c.daysToFutureClose ∧ c.daysToFutureClose ≤ 85 ∧
  5 ≤ c.daysOnMarket ∧ c.daysOnMarket ≤ 90 ∧
  30 ≤ c.daysToClose ∧ c.daysToClose ≤ 60 ∧
  1 ≤ c.streetNum ∧ c.streetNum ≤ 999 ∧
  c.streetName ∈ STREET_NAMES ∧
  10 ≤ c.zipDraw ∧ c.zipDraw ≤ 99

instance (c : Choices) : Decidable (Choices.Valid c) := by
  unfold Choices.Valid; infer_instance

/-- base_price = (draw in thousands) * 1000. -/
def base_price (c : Choices) : ℤ := (c.basePriceK : ℤ) * 1000

/-- Psychological pricing, same 0.7-probability rule as variant A. -/
def price (c : Choices) : ℤ :=
  if c.psych then base_price c - 100 else base_price c

/-- Original price, markup drawn from 10..100 thousand here. -/
def original_price (c : Choices) : ℤ :=
  if c.origMarkup then price c + (c.markupK : ℤ) * 1000 else price c

/-- listing_date = random_date(START_DATE, END_DATE - timedelta(days=60)). -/
def listing_date (today : ℤ) (c : Choices) : ℤ :=
  START_DATE today + (c.listingOffset : ℤ)

/-- The dates block of generate_record in the sold-test variant:
Under Contract and Active Listing keep their status, get a forced future
closing today + daysToFutureClose and a back-computed offer = closing - 45;
Sold and Archived get the historical derivation and are flipped to
Under Contract (closing kept) when the computed closing is after today. -/
def statusDates (today : ℤ) (c : Choices) : Brokerage.DateInfo :=
  if c.status = "Under Contract" ∨ c.status = "Active Listing" then
    let closing := today + (c.daysToFutureClose : ℤ)
    let offer := closing - 45
    { status := c.status, offer := some offer, closing := some closing,
      contract := some offer }
  else if c.status = "Sold" ∨ c.status = "Archived" then
    let offer := listing_date today c + (c.daysOnMarket : ℤ)
    let closing := offer + (c.daysToClose : ℤ)
    if today < closing then
      { status := "Under Contract", offer := some offer,
        closing := some closing, contract := some offer }
    else
      { status := c.status, offer := some offer, closing := some closing,
        contract := some offer }
  else
    { status := c.status, offer := none, closing := none, contract := none }

/-- Commission pair (buy side, sell side) at the 2.5 percent rate. -/
def commission_pair (c : Choices) : ℚ × ℚ :=
  if c.doubleEnded then ((price c : ℚ) * 0.025, (price c : ℚ) * 0.025)
  else if c.buySideDraw then ((price c : ℚ) * 0.025, 0)
  else (0, (price c : ℚ) * 0.025)

/-- Character list of the synthesized address
f-string street_num SP street_name ", " city ", MA 021" zip_draw. -/
def addressChars (c : Choices) : List Char :=
  natChars c.streetNum ++ ' ' :: (c.streetName.data ++ (", ".data ++ (c.city.data ++ (", MA 021".data ++ natChars c.zipDraw))))

/-- The street-name column value address.split(",")[0].split(" ", 1)[1];
none when an index would raise IndexError. -/
def streetNameField (c : Choices) : Option String :=
  match (pySplit ',' (addressChars c))[0]? with
  | none => none
  | some first =>
    match (pySplitMax1 ' ' first)[1]? with
    | none => none
    | some rest => some (String.mk rest)

/-- The generated record (the returned dict), restricted to the non-constant
columns; see the module docstring for the omitted boilerplate columns. -/
structure Record where
  loopView : ℤ
  loopId : ℤ
  loopName : String
  loopStatus : String
  complianceStatus : String
  tags : String
  createdDate : ℤ
  closingDate : Option ℤ
  expirationDate : ℤ
  listingDate : ℤ
  joinedDate : ℤ
  offerDate : Option ℤ
  address : String
  price : ℤ
  agents : String
  addressLine1 : String
  contractClosingDate : Option ℤ
  contractAgreementDate : Option ℤ
  earnestMoney : ℚ
  purchasePrice : ℤ
  buySideComm : ℚ
  sellSideComm : ℚ
  totalComm : ℚ
  leadSource : String
  currentPrice : ℤ
  listingExpirationDate : ℤ
  originalPrice : ℤ
  occupancyDate : Option ℤ
  propType : String
  propCity : String
  streetNameCol : String
  streetNumber : ℕ
  referralPct : String
  referralSource : String

/-- Assembly of the returned dict, given the successfully computed
street-name value (used both for Address 1 and for the street-name column). -/
def mkRecord (today loopId : ℤ) (c : Choices) (sn : String) : Record :=
  let d := statusDates today c
  let bs := commission_pair c
  let total := bs.1 + bs.2
  { loopView := loopId
    loopId := loopId
    loopName := String.mk (addressChars c)
    loopStatus := d.status
    complianceStatus := if d.status = "Sold" then "Approved" else "Pending"
    tags := if 1500000 < price c then "Luxury" else ""
    createdDate := listing_date today c
    closingDate := d.closing
    expirationDate := listing_date today c + 180
    listingDate := listing_date today c
    joinedDate := listing_date today c
    offerDate := d.offer
    address := String.mk (addressChars c)
    price := price c
    agents := c.agent
    addressLine1 := String.mk (natChars c.streetNum) ++ " " ++ sn
    contractClosingDate := d.closing
    contractAgreementDate := d.contract
    earnestMoney := (price c : ℚ) * 0.05
    purchasePrice := price c
    buySideComm := bs.1
    sellSideComm := bs.2
    totalComm := total
    leadSource := c.leadSource
    currentPrice := price c
    listingExpirationDate := listing_date today c + 180
    originalPrice := original_price c
    occupancyDate := d.closing
    propType := c.propType
    propCity := c.city
    streetNameCol := sn
    streetNumber := c.streetNum
    referralPct := if c.leadSource = "Referral" then "25" else "0"
    referralSource := if c.leadSource = "Referral" then c.leadSource else "" }

/-- generate_record for the sold-test variant; again the only fallible step
is the address splitting. -/
def generate_record (today loopId : ℤ) (c : Choices) : Option Record :=
  (streetNameField c).map (mkRecord today loopId c)

end SoldTest

/-! ## Calendar arithmetic for the literal date example of the spec -/

/-- Gregorian leap-year test, as in the Python datetime module. -/
def isLeapYear (y : ℕ) : Bool := (y % 4 == 0 && y % 100 != 0) || y % 400 == 0

/-- Length of month m (1..12). -/
def monthLength (leap : Bool) (m : ℕ) : ℕ :=
  if m = 2 then (if leap then 29 else 28)
  else if m = 4 ∨ m = 6 ∨ m = 9 ∨ m = 11 then 30
  else 31

/-- Proleptic-Gregorian ordinal of a civil date, as computed by Python
date.toordinal: days before the year, plus days before the month, plus the
day of month. -/
def toOrdinal (y m d : ℕ) : ℕ :=
  365 * (y - 1) + (y - 1) / 4 - (y - 1) / 100 + (y - 1) / 400
    + (((List.range (m - 1)).map fun i => monthLength (isLeapYear y) (i + 1)).sum)
    + d

/-! ## Per-claim record properties (Bool-valued; A !a || b is an implication) -/

namespace Brokerage

/-- C1 property: a record whose final status is Sold has its closing date
not after today, and when the sampled status was Sold but the derived
closing listing + days_on_market + days_to_close falls after today, the
status was downgraded to Under Contract with the offer date and the
projected closing date still emitted. -/
def c1prop (today : ℤ) (c : Choices) (r : Record) : Bool :=
  (!(r.loopStatus == "Sold") || r.closingDate.all fun d => decide (d ≤ today)) &&
  (!(c.status == "Sold" &&
      decide (today < listing_date today c + (c.daysOnMarket : ℤ) + (c.daysToClose : ℤ))) ||
    (r.loopStatus == "Under Contract" &&
     r.offerDate == some (listing_date today c + (c.daysOnMarket : ℤ)) &&
     r.closingDate == some (listing_date today c + (c.daysOnMarket : ℤ) + (c.daysToClose : ℤ))))

/-- C2 property as the claim states it: final status in the offer-bearing
set implies offer and contract dates non-empty and equal, with the offer
between the listing date and listing date + 90. -/
def c2prop (r : Record) : Bool :=
  !(r.loopStatus == "Under Contract" || r.loopStatus == "Sold" ||
    r.loopStatus == "Archived") ||
  (r.offerDate.isSome && r.offerDate == r.contractAgreementDate &&
   r.offerDate.all fun d =>
     decide (r.listingDate ≤ d) && decide (d ≤ r.listingDate + 90))

/-- C3 window membership of a date. -/
def inWindow (lo hi d : ℤ) : Bool := decide (lo ≤ d) && decide (d ≤ hi)

/-- C3 window membership of an optional date (an empty field passes). -/
def optInWindow (lo hi : ℤ) (o : Option ℤ) : Bool := o.all (inWindow lo hi)

/-- C3 property as the claim states it: every date field inside
[today - 450, today + 90], and listing dates at most today + 30 (sampled up
to 60 days before the window end). -/
def c3claimProp (today : ℤ) (r : Record) : Bool :=
  inWindow (today - 450) (today + 90) r.listingDate &&
  inWindow (today - 450) (today + 90) r.createdDate &&
  inWindow (today - 450) (today + 90) r.joinedDate &&
  inWindow (today - 450) (today + 90) r.expirationDate &&
  optInWindow (today - 450) (today + 90) r.offerDate &&
  optInWindow (today - 450) (today + 90) r.contractAgreementDate &&
  optInWindow (today - 450) (today + 90) r.closingDate &&
  optInWindow (today - 450) (today + 90) r.contractClosingDate &&
  decide (r.listingDate ≤ today + 30)

/-- C3 property as amended: same field list, with the true upper bound
today + 210 (reached by expiration = listing + 180 at the latest listing
today + 30; offers reach today + 120 and closings today + 180). -/
def c3prop (today : ℤ) (r : Record) : Bool :=
  inWindow (today - 450) (today + 210) r.listingDate &&
  inWindow (today - 450) (today + 210) r.createdDate &&
  inWindow (today - 450) (today + 210) r.joinedDate &&
  inWindow (today - 450) (today + 210) r.expirationDate &&
  optInWindow (today - 450) (today + 210) r.offerDate &&
  optInWindow (today - 450) (today + 210) r.contractAgreementDate &&
  optInWindow (today - 450) (today + 210) r.closingDate &&
  optInWindow (today - 450) (today + 210) r.contractClosingDate &&
  decide (r.listingDate ≤ today + 30)

/-- C4 property: the total is the sum of the sides, each side is exactly 0
or exactly price times the 3 percent rate, and outside double ending at
most one side is nonzero while double ending pays both sides in full. -/
def c4prop (c : Choices) (r : Record) : Bool :=
  (r.totalComm == r.buySideComm + r.sellSideComm) &&
  (r.buySideComm == 0 || r.buySideComm == (r.price : ℚ) * 0.03) &&
  (r.sellSideComm == 0 || r.sellSideComm == (r.price : ℚ) * 0.03) &&
  (if c.doubleEnded then
    r.buySideComm == (r.price : ℚ) * 0.03 && r.sellSideComm == (r.price : ℚ) * 0.03
   else r.buySideComm == 0 || r.sellSideComm == 0)

/-- C5 property: expiration date is always listing date + 180 days. -/
def c5prop (r : Record) : Bool := r.expirationDate == r.listingDate + 180

/-- C6 property: original price at least price and either equal to it or
equal to price plus a whole-thousand markup from the 5..50 range. -/
def c6prop (c : Choices) (r : Record) : Bool :=
  decide (r.price ≤ r.originalPrice) &&
  (r.originalPrice == r.price ||
   (r.originalPrice == r.price + (c.markupK : ℤ) * 1000 &&
    decide (5 ≤ c.markupK) && decide (c.markupK ≤ 50)))

/-- C8 property: a Condo record has a whole-thousand base price in
[200000, 600000] and a price within [199900, 600000], with the
psychological-pricing step subtracting at most 100. -/
def c8prop (c : Choices) (r : Record) : Bool :=
  !(c.propType == "Condo") ||
  (base_price c == (c.basePriceK : ℤ) * 1000 &&
   decide (200000 ≤ base_price c) && decide (base_price c ≤ 600000) &&
   decide (base_price c - 100 ≤ r.price) && decide (r.price ≤ base_price c) &&
   decide (199900 ≤ r.price) && decide (r.price ≤ 600000))

/-- C9 property: a record whose final status is Active Listings has empty
offer, contract-agreement and both closing-date columns. -/
def c9prop (r : Record) : Bool :=
  !(r.loopStatus == "Active Listings") ||
  (r.offerDate == none && r.contractAgreementDate == none &&
   r.closingDate == none && r.contractClosingDate == none)

/-- C10 property: compliance status is Approved exactly on final status
Sold and Pending otherwise. -/
def c10prop (r : Record) : Bool :=
  r.complianceStatus == (if r.loopStatus == "Sold" then "Approved" else "Pending")

end Brokerage

namespace SoldTest

/-- C1 property for the sold-test variant; the derived closing of the
Sold/Archived branch is listing + days_on_market + days_to_close. -/
def c1prop (today : ℤ) (c : Choices) (r : Record) : Bool :=
  (!(r.loopStatus == "Sold") || r.closingDate.all fun d => decide (d ≤ today)) &&
  (!(c.status == "Sold" &&
      decide (today < listing_date today c + (c.daysOnMarket : ℤ) + (c.daysToClose : ℤ))) ||
    (r.loopStatus == "Under Contract" &&
     r.offerDate == some (listing_date today c + (c.daysOnMarket : ℤ)) &&
     r.closingDate == some (listing_date today c + (c.daysOnMarket : ℤ) + (c.daysToClose : ℤ))))

/-- C2 property exactly as the claim states it, applied to the sold-test
variant (this is the part the code refutes). -/
def c2claimProp (r : Record) : Bool :=
  !(r.loopStatus == "Under Contract" || r.loopStatus == "Sold" ||
    r.loopStatus == "Archived") ||
  (r.offerDate.isSome && r.offerDate == r.contractAgreementDate &&
   r.offerDate.all fun d =>
     decide (r.listingDate ≤ d) && decide (d ≤ r.listingDate + 90))

/-- C2 property as amended for the sold-test variant: non-empty equal offer
and contract dates for the offer-bearing final statuses; the listing-window
bound only for records sampled as Sold or Archived; records sampled as
Under Contract or Active Listing instead carry the back-computed offer
today + days_to_future_close - 45. -/
def c2prop (today : ℤ) (c : Choices) (r : Record) : Bool :=
  (!(r.loopStatus == "Under Contract" || r.loopStatus == "Sold" ||
     r.loopStatus == "Archived") ||
   (r.offerDate.isSome && r.offerDate == r.contractAgreementDate)) &&
  (!(c.status == "Sold" || c.status == "Archived") ||
   r.offerDate.all fun d =>
     decide (r.listingDate ≤ d) && decide (d ≤ r.listingDate + 90)) &&
  (!(c.status == "Under Contract" || c.status == "Active Listing") ||
   r.offerDate == some (today + (c.daysToFutureClose : ℤ) - 45))

/-- C3 property as amended, for the sold-test variant, covering its extra
date columns (occupancy and the listing-information expiration). -/
def c3prop (today : ℤ) (r : Record) : Bool :=
  Brokerage.inWindow (today - 450) (today + 210) r.listingDate &&
  Brokerage.inWindow (today - 450) (today + 210) r.createdDate &&
  Brokerage.inWindow (today - 450) (today + 210) r.joinedDate &&
  Brokerage.inWindow (today - 450) (today + 210) r.expirationDate &&
  Brokerage.inWindow (today - 450) (today + 210) r.listingExpirationDate &&
  Brokerage.optInWindow (today - 450) (today + 210) r.offerDate &&
  Brokerage.optInWindow (today - 450) (today + 210) r.contractAgreementDate &&
  Brokerage.optInWindow (today - 450) (today + 210) r.closingDate &&
  Brokerage.optInWindow (today - 450) (today + 210) r.contractClosingDate &&
  Brokerage.optInWindow (today - 450) (today + 210) r.occupancyDate &&
  decide (r.listingDate ≤ today + 30)

/-- C4 property at the 2.5 percent rate of this variant. -/
def c4prop (c : Choices) (r : Record) : Bool :=
  (r.totalComm == r.buySideComm + r.sellSideComm) &&
  (r.buySideComm == 0 || r.buySideComm == (r.price : ℚ) * 0.025) &&
  (r.sellSideComm == 0 || r.sellSideComm == (r.price : ℚ) * 0.025) &&
  (if c.doubleEnded then
    r.buySideComm == (r.price : ℚ) * 0.025 && r.sellSideComm == (r.price : ℚ) * 0.025
   else r.buySideComm == 0 || r.sellSideComm == 0)

/-- C5 property: both expiration columns equal listing date + 180 days. -/
def c5prop (r : Record) : Bool :=
  (r.expirationDate == r.listingDate + 180) &&
  (r.listingExpirationDate == r.listingDate + 180)

/-- C6 property, with the 10..100 thousand markup range of this variant. -/
def c6prop (c : Choices) (r : Record) : Bool :=
  decide (r.price ≤ r.originalPrice) &&
  (r.originalPrice == r.price ||
   (r.originalPrice == r.price + (c.markupK : ℤ) * 1000 &&
    decide (10 ≤ c.markupK) && decide (c.markupK ≤ 100)))

/-- C10 property for the sold-test variant. -/
def c10prop (r : Record) : Bool :=
  r.complianceStatus == (if r.loopStatus == "Sold" then "Approved" else "Pending")

end SoldTest

/-- C7 side condition: every roster either generator samples from is
non-empty. -/
def allRostersNonempty : Bool :=
  !Brokerage.AGENTS.isEmpty && !Brokerage.LEAD_SOURCES.isEmpty &&
  !Brokerage.PROPERTY_TYPES.isEmpty && !Brokerage.CITIES.isEmpty &&
  !Brokerage.STATUSES.isEmpty && !Brokerage.STREET_NAMES.isEmpty &&
  !SoldTest.AGENTS.isEmpty && !SoldTest.LEAD_SOURCES.isEmpty &&
  !SoldTest.PROPERTY_TYPES.isEmpty && !SoldTest.CITIES.isEmpty &&
  !SoldTest.STATUSES.isEmpty && !SoldTest.STREET_NAMES.isEmpty

/-! ## Concrete inputs used by witnesses and counterexamples -/

/-- A possible run of the variant-A generator: a Condo sold well in the
past. -/
def cexA : Brokerage.Choices :=
  { status := "Sold", propType := "Condo", city := "Atlanta",
    agent := "Sarah Miller", leadSource := "Referral", basePriceK := 300,
    psych := true, origMarkup := true, markupK := 10, listingOffset := 0,
    daysOnMarket := 10, daysToClose := 30, doubleEnded := false,
    buySideDraw := true, streetNum := 123, streetName := "Main St" }

/-- A possible run of the variant-B generator: a Condo sold well in the
past. -/
def cexB : SoldTest.Choices :=
  { status := "Sold", propType := "Condo", city := "Boston",
    agent := "Sarah Miller", leadSource := "Referral", basePriceK := 400,
    psych := true, origMarkup := true, markupK := 20, listingOffset := 0,
    daysToFutureClose := 20, daysOnMarket := 10, daysToClose := 30,
    doubleEnded := false, buySideDraw := true, streetNum := 12,
    streetName := "Beacon St", zipDraw := 15 }

/-- A possible run of the variant-B generator refuting C2 as stated: status
sampled directly as Under Contract, the latest possible listing date
(today + 30), and the earliest future closing (today + 15), so the
back-computed offer today - 30 precedes the listing date. -/
def cex2B : SoldTest.Choices :=
  { status := "Under Contract", propType := "Condo", city := "Boston",
    agent := "Sarah Miller", leadSource := "Referral", basePriceK := 400,
    psych := true, origMarkup := true, markupK := 20, listingOffset := 390,
    daysToFutureClose := 15, daysOnMarket := 10, daysToClose := 30,
    doubleEnded := false, buySideDraw := true, streetNum := 12,
    streetName := "Beacon St", zipDraw := 15 }

/-- A possible run of the variant-A generator refuting C3 as stated: an
active listing listed at the latest possible date today + 30, whose
expiration today + 210 lies outside the claimed window today + 90. -/
def cex3A : Brokerage.Choices :=
  { status := "Active Listings", propType := "Condo", city := "Atlanta",
    agent := "Sarah Miller", leadSource := "Referral", basePriceK := 300,
    psych := true, origMarkup := true, markupK := 10, listingOffset := 390,
    daysOnMarket := 10, daysToClose := 30, doubleEnded := false,
    buySideDraw := true, streetNum := 123, streetName := "Main St" }

/-! ## Infrastructure lemmas -/

theorem pySplit_ne_nil (sep : Char) (l : List Char) : pySplit sep l ≠ [] := by
  induction l with
  | nil => simp [pySplit]
  | cons ch cs ih =>
    simp only [pySplit]
    split
    · simp
    · split
      · simp
      · simp

theorem pySplit_append (sep : Char) (l1 l2 : List Char) (h : sep ∉ l1) :
    pySplit sep (l1 ++ sep :: l2) = l1 :: pySplit sep l2 := by
  induction l1 with
  | nil => simp [pySplit]
  | cons ch cs ih =>
    have hch : ¬ ch = sep := fun he => h (he ▸ List.mem_cons_self ch cs)
    have hcs : sep ∉ cs := fun hm => h (List.mem_cons_of_mem ch hm)
    simp only [List.cons_append, pySplit, if_neg hch, List.append_eq, ih hcs]

theorem two_le_length_pySplit (sep : Char) (l : List Char) (h : sep ∈ l) :
    2 ≤ (pySplit sep l).length := by
  induction l with
  | nil => simp at h
  | cons ch cs ih =>
    simp only [pySplit]
    by_cases hch : ch = sep
    · rw [if_pos hch]
      have := pySplit_ne_nil sep cs
      have : 1 ≤ (pySplit sep cs).length := by
        cases he : pySplit sep cs with
        | nil => exact absurd he this
        | cons w ws => simp
      simp only [List.length_cons]
      omega
    · rw [if_neg hch]
      have hm : sep ∈ cs := by
        rcases List.mem_cons.mp h with h1 | h2
        · exact absurd h1.symm hch
        · exact h2
      have h2 := ih hm
      cases he : pySplit sep cs with
      | nil => exact absurd he (pySplit_ne_nil sep cs)
      | cons w ws =>
        rw [he] at h2
        simpa using h2

theorem pySplitMax1_append (sep : Char) (l1 l2 : List Char) (h : sep ∉ l1) :
    pySplitMax1 sep (l1 ++ sep :: l2) = [l1, l2] := by
  induction l1 with
  | nil => simp [pySplitMax1]
  | cons ch cs ih =>
    have hch : ¬ ch = sep := fun he => h (he ▸ List.mem_cons_self ch cs)
    have hcs : sep ∉ cs := fun hm => h (List.mem_cons_of_mem ch hm)
    simp only [List.cons_append, pySplitMax1, if_neg hch, List.append_eq, ih hcs]

theorem digitChar_isDigit : ∀ m, m < 10 → (Nat.digitChar m).isDigit = true := by
  decide

theorem natCharsAux_isDigit (fuel : ℕ) :
    ∀ (n : ℕ) (acc : List Char), (∀ ch ∈ acc, ch.isDigit = true) →
      ∀ ch ∈ natCharsAux fuel n acc, ch.isDigit = true := by
  induction fuel with
  | zero => intro n acc hacc; simpa [natCharsAux] using hacc
  | succ fuel ih =>
    intro n acc hacc ch hch
    simp only [natCharsAux] at hch
    by_cases hn : n < 10
    · rw [if_pos hn] at hch
      rcases List.mem_cons.mp hch with h1 | h2
      · exact h1 ▸ digitChar_isDigit n hn
      · exact hacc ch h2
    · rw [if_neg hn] at hch
      refine ih (n / 10) (Nat.digitChar (n % 10) :: acc) ?_ ch hch
      intro ch2 hch2
      rcases List.mem_cons.mp hch2 with h1 | h2
      · exact h1 ▸ digitChar_isDigit (n % 10) (Nat.mod_lt n (by omega))
      · exact hacc ch2 h2

theorem natChars_isDigit (n : ℕ) : ∀ ch ∈ natChars n, ch.isDigit = true :=
  natCharsAux_isDigit (n + 1) n [] (by simp)

theorem space_not_mem_natChars (n : ℕ) : ' ' ∉ natChars n := by
  intro h
  have := natChars_isDigit n ' ' h
  simp [Char.isDigit] at this

theorem comma_not_mem_natChars (n : ℕ) : ',' ∉ natChars n := by
  intro h
  have := natChars_isDigit n ',' h
  simp [Char.isDigit] at this

/-! ## Helper lemmas for the claim proofs -/

theorem brokerage_all_gen (today loopId : ℤ) (c : Brokerage.Choices)
    (p : Brokerage.Record → Bool)
    (h : ∀ sn, p (Brokerage.mkRecord today loopId c sn) = true) :
    (Brokerage.generate_record today loopId c).all p = true := by
  rw [Brokerage.generate_record]
  cases Brokerage.streetNameField c with
  | none => rfl
  | some sn => exact h sn

theorem soldtest_all_gen (today loopId : ℤ) (c : SoldTest.Choices)
    (p : SoldTest.Record → Bool)
    (h : ∀ sn, p (SoldTest.mkRecord today loopId c sn) = true) :
    (SoldTest.generate_record today loopId c).all p = true := by
  rw [SoldTest.generate_record]
  cases SoldTest.streetNameField c with
  | none => rfl
  | some sn => exact h sn

/-! ## Claim theorems -/

/-- C10: in both variants the compliance-status column is Approved exactly
when the final (post-downgrade) loop status is Sold, and Pending for every
other status. -/
theorem c10_compliance_approved_iff_sold (today loopId : ℤ)
    (cA : Brokerage.Choices) (cB : SoldTest.Choices) :
    (Brokerage.generate_record today loopId cA).all Brokerage.c10prop = true ∧
    (SoldTest.generate_record today loopId cB).all SoldTest.c10prop = true := by
  constructor
  · apply brokerage_all_gen
    intro sn
    simp only [Brokerage.c10prop, Brokerage.mkRecord]
    by_cases hs : (Brokerage.statusDates today cA).status = "Sold" <;> simp [hs]
  · apply soldtest_all_gen
    intro sn
    simp only [SoldTest.c10prop, SoldTest.mkRecord]
    by_cases hs : (SoldTest.statusDates today cB).status = "Sold" <;> simp [hs]

/-- C5: in both variants every generated record has expiration date equal
to listing date + 180 days, independently of status; in the calendar this
step is the literal example listing 2025-01-01 giving expiration
2025-06-30. -/
theorem c5_expiration_is_listing_plus_180 (today loopId : ℤ)
    (cA : Brokerage.Choices) (cB : SoldTest.Choices) :
    ((Brokerage.generate_record today loopId cA).all Brokerage.c5prop = true ∧
     (SoldTest.generate_record today loopId cB).all SoldTest.c5prop = true) ∧
    toOrdinal 2025 6 30 = toOrdinal 2025 1 1 + 180 := by
  refine ⟨⟨?_, ?_⟩, by decide⟩
  · apply brokerage_all_gen
    intro sn
    simp [Brokerage.c5prop, Brokerage.mkRecord]
  · apply soldtest_all_gen
    intro sn
    simp [SoldTest.c5prop, SoldTest.mkRecord]

/-- C9: in the brokerage variant a record whose final status is Active
Listings has empty offer, contract-agreement and closing-date columns,
because the date-derivation branch runs only for the offer-bearing
statuses. -/
theorem c9_active_listings_have_no_dates (today loopId : ℤ)
    (cA : Brokerage.Choices) :
    (Brokerage.generate_record today loopId cA).all Brokerage.c9prop = true := by
  apply brokerage_all_gen
  intro sn
  simp only [Brokerage.c9prop, Brokerage.mkRecord]
  unfold Brokerage.statusDates
  dsimp only
  split_ifs with hg hs hf hu
  · simp
  · simp
  · simp
  · rcases hg with h | h | h
    · exact absurd h hu
    · exact absurd h hs
    · simp [h]
  · simp

/-- C4: in both variants the commission total is the sum of the two sides,
each side is exactly zero or exactly price times the per-side rate, and the
two sides are both paid exactly when the double-ended draw fired, otherwise
exactly one side is paid. -/
theorem c4_commission_sum_and_split (today loopId : ℤ)
    (cA : Brokerage.Choices) (cB : SoldTest.Choices) :
    (Brokerage.generate_record today loopId cA).all (Brokerage.c4prop cA) = true ∧
    (SoldTest.generate_record today loopId cB).all (SoldTest.c4prop cB) = true := by
  constructor
  · apply brokerage_all_gen
    intro sn
    simp only [Brokerage.c4prop, Brokerage.mkRecord, Brokerage.commission_pair]
    cases hd : cA.doubleEnded <;> cases hb : cA.buySideDraw <;> simp
  · apply soldtest_all_gen
    intro sn
    simp only [SoldTest.c4prop, SoldTest.mkRecord, SoldTest.commission_pair]
    cases hd : cB.doubleEnded <;> cases hb : cB.buySideDraw <;> simp

/-- C1: in both variants a record whose final status is Sold has a closing
date not after today, and whenever the sampled status was Sold but the
derived closing offer + days_to_close falls after today the status is
downgraded to Under Contract with the offer date and the projected closing
date still emitted. -/
theorem c1_sold_closing_not_after_today (today loopId : ℤ)
    (cA : Brokerage.Choices) (cB : SoldTest.Choices) :
    (Brokerage.generate_record today loopId cA).all (Brokerage.c1prop today cA) = true ∧
    (SoldTest.generate_record today loopId cB).all (SoldTest.c1prop today cB) = true := by
  constructor
  · apply brokerage_all_gen
    intro sn
    simp only [Brokerage.c1prop, Brokerage.mkRecord]
    unfold Brokerage.statusDates
    dsimp only
    split_ifs with hg hs hf hu
    · simp [hs, hf]
    · simp [hs, hf]
      omega
    · simp [hs]
    · simp [hs]
    · push_neg at hg
      simp [hg.2.1]
  · apply soldtest_all_gen
    intro sn
    simp only [SoldTest.c1prop, SoldTest.mkRecord]
    unfold SoldTest.statusDates
    dsimp only
    split_ifs with hp hso hf
    · rcases hp with h | h <;> simp [h]
    · simp
    · rcases hso with h | h
      · simp [h, hf]
        omega
      · simp [h, hf]
    · push_neg at hso
      simp [hso.1]

/-- C6: in both variants the original price is at least the price, being
either exactly the price or the price plus a positive whole-thousand markup
drawn from a property-type-independent range. -/
theorem c6_original_price_ge_price (today loopId : ℤ)
    (cA : Brokerage.Choices) (cB : SoldTest.Choices)
    (hA : cA.Valid) (hB : cB.Valid) :
    (Brokerage.generate_record today loopId cA).all (Brokerage.c6prop cA) = true ∧
    (SoldTest.generate_record today loopId cB).all (SoldTest.c6prop cB) = true := by
  obtain ⟨-, -, -, -, -, -, -, hm5, hm50, -⟩ := hA
  obtain ⟨-, -, -, -, -, -, -, hm10, hm100, -⟩ := hB
  constructor
  · apply brokerage_all_gen
    intro sn
    simp only [Brokerage.c6prop, Brokerage.mkRecord, Brokerage.original_price]
    by_cases hm : cA.origMarkup = true <;> simp [hm, hm5, hm50]
  · apply soldtest_all_gen
    intro sn
    simp only [SoldTest.c6prop, SoldTest.mkRecord, SoldTest.original_price]
    by_cases hm : cB.origMarkup = true <;> simp [hm, hm10, hm100]

/-- C6 witness: the two sample runs are valid draws and satisfy the C6
properties. -/
theorem c6_original_price_ge_price_witness :
    cexA.Valid ∧ cexB.Valid ∧
    ((Brokerage.generate_record 0 300000000 cexA).all (Brokerage.c6prop cexA) = true ∧
     (SoldTest.generate_record 0 300000000 cexB).all (SoldTest.c6prop cexB) = true) :=
  ⟨by decide, by decide,
   c6_original_price_ge_price 0 300000000 cexA cexB (by decide) (by decide)⟩

/-- C8: in the brokerage configuration a Condo record has a whole-thousand
base price in [200000, 600000] and a price field within [199900, 600000],
the psychological-pricing step subtracting at most 100. -/
theorem c8_condo_price_range (today loopId : ℤ)
    (cA : Brokerage.Choices) (hA : cA.Valid) :
    (Brokerage.generate_record today loopId cA).all (Brokerage.c8prop cA) = true := by
  obtain ⟨-, -, -, -, -, plo, phi, -⟩ := hA
  apply brokerage_all_gen
  intro sn
  by_cases hc : cA.propType = "Condo"
  · rw [hc] at plo phi
    simp [Brokerage.priceLo] at plo
    simp [Brokerage.priceHi] at phi
    simp only [Brokerage.c8prop, Brokerage.mkRecord, Brokerage.price,
      Brokerage.base_price, hc]
    by_cases hp : cA.psych = true <;> simp [hp] <;> omega
  · simp [Brokerage.c8prop, hc]

/-- C8 witness: the variant-A sample run is a valid draw and satisfies the
C8 property. -/
theorem c8_condo_price_range_witness :
    cexA.Valid ∧
    (Brokerage.generate_record 0 300000000 cexA).all (Brokerage.c8prop cexA) = true :=
  ⟨by decide, c8_condo_price_range 0 300000000 cexA (by decide)⟩

/-- C2 counterexample: a valid draw of the sold-test generator (status
sampled directly as Under Contract, listing at today + 30, future close at
today + 15) produces a record violating the claimed listing-window bound on
the offer date: the offer is back-computed as today - 30, sixty days before
the listing date. -/
theorem c2_counterexample :
    cex2B.Valid ∧
    (SoldTest.generate_record 0 300000000 cex2B).all SoldTest.c2claimProp = false := by
  constructor
  · decide
  · decide

/-- C2 (amended): in both variants an offer-bearing final status comes with
non-empty equal offer and contract dates.  The bound offer between listing
and listing + 90 holds throughout the brokerage variant and for sold-test
records sampled as Sold or Archived; sold-test records sampled directly as
Under Contract or Active Listing instead carry the back-computed offer
today + days_to_future_close - 45, which can leave the listing window. -/
theorem c2_offer_contract_dates (today loopId : ℤ)
    (cA : Brokerage.Choices) (cB : SoldTest.Choices)
    (hA : cA.Valid) (hB : cB.Valid) :
    (Brokerage.generate_record today loopId cA).all Brokerage.c2prop = true ∧
    (SoldTest.generate_record today loopId cB).all (SoldTest.c2prop today cB) = true := by
  obtain ⟨-, -, -, -, -, -, -, -, -, -, hd5, hd90, -⟩ := hA
  obtain ⟨-, -, -, -, -, -, -, -, -, -, -, -, hd5B, hd90B, -⟩ := hB
  constructor
  · apply brokerage_all_gen
    intro sn
    simp only [Brokerage.c2prop, Brokerage.mkRecord]
    unfold Brokerage.statusDates
    dsimp only
    split_ifs with hg hs hf hu
    · simp
      omega
    · simp
      omega
    · simp
      omega
    · rcases hg with h | h | h
      · exact absurd h hu
      · exact absurd h hs
      · simp [h]
        omega
    · push_neg at hg
      simp [hg.1, hg.2.1, hg.2.2]
  · apply soldtest_all_gen
    intro sn
    simp only [SoldTest.c2prop, SoldTest.mkRecord]
    unfold SoldTest.statusDates
    dsimp only
    split_ifs with hp hso hf
    · rcases hp with h | h <;> simp [h]
    · rcases hso with h | h <;> simp [h] <;> omega
    · rcases hso with h | h <;> simp [h] <;> omega
    · push_neg at hp hso
      simp [hp.1, hp.2, hso.1, hso.2]

/-- C2 witness: the two sample runs are valid draws and satisfy the amended
C2 properties. -/
theorem c2_offer_contract_dates_witness :
    cexA.Valid ∧ cexB.Valid ∧
    ((Brokerage.generate_record 0 300000000 cexA).all Brokerage.c2prop = true ∧
     (SoldTest.generate_record 0 300000000 cexB).all (SoldTest.c2prop 0 cexB) = true) :=
  ⟨by decide, by decide,
   c2_offer_contract_dates 0 300000000 cexA cexB (by decide) (by decide)⟩

/-- C3 counterexample: a valid draw of the brokerage generator (an active
listing listed at the latest sampled date today + 30) produces an
expiration date today + 210, outside the claimed window ending at
today + 90. -/
theorem c3_counterexample :
    cex3A.Valid ∧
    (Brokerage.generate_record 0 300000000 cex3A).all (Brokerage.c3claimProp 0) = false := by
  constructor
  · decide
  · decide

/-- C3 (amended): listing dates are sampled only up to 60 days before the
window end, hence lie in [today - 360, today + 30]; every date field of
every record in both variants lies within [today - 450, today + 210], the
upper bound being attained by expiration = listing + 180 (offers can reach
today + 120 and closings today + 180, both already past the today + 90
window end the claim states). -/
theorem c3_dates_within_window (today loopId : ℤ)
    (cA : Brokerage.Choices) (cB : SoldTest.Choices)
    (hA : cA.Valid) (hB : cB.Valid) :
    (Brokerage.generate_record today loopId cA).all (Brokerage.c3prop today) = true ∧
    (SoldTest.generate_record today loopId cB).all (SoldTest.c3prop today) = true := by
  obtain ⟨-, -, -, -, -, -, -, -, -, hoff, hd5, hd90, hc30, hc60, -⟩ := hA
  obtain ⟨-, -, -, -, -, -, -, -, -, hoffB, ht15, ht85, hd5B, hd90B, hc30B, hc60B, -⟩ := hB
  constructor
  · apply brokerage_all_gen
    intro sn
    simp only [Brokerage.c3prop, Brokerage.mkRecord, Brokerage.inWindow,
      Brokerage.optInWindow, Brokerage.listing_date, Brokerage.START_DATE,
      Brokerage.END_DATE]
    unfold Brokerage.statusDates
    dsimp only [Brokerage.listing_date, Brokerage.START_DATE, Brokerage.END_DATE]
    split_ifs with hg hs hf hu <;> simp [Brokerage.inWindow] <;> omega
  · apply soldtest_all_gen
    intro sn
    simp only [SoldTest.c3prop, SoldTest.mkRecord, Brokerage.inWindow,
      Brokerage.optInWindow, SoldTest.listing_date, SoldTest.START_DATE,
      SoldTest.END_DATE]
    unfold SoldTest.statusDates
    dsimp only [SoldTest.listing_date, SoldTest.START_DATE, SoldTest.END_DATE]
    split_ifs with hp hso hf <;> simp [Brokerage.inWindow] <;> omega

/-- C3 witness: the two sample runs are valid draws and satisfy the amended
C3 properties. -/
theorem c3_dates_within_window_witness :
    cexA.Valid ∧ cexB.Valid ∧
    ((Brokerage.generate_record 0 300000000 cexA).all (Brokerage.c3prop 0) = true ∧
     (SoldTest.generate_record 0 300000000 cexB).all (SoldTest.c3prop 0) = true) :=
  ⟨by decide, by decide,
   c3_dates_within_window 0 300000000 cexA cexB (by decide) (by decide)⟩

theorem brokerage_street_names_have_space :
    ∀ s ∈ Brokerage.STREET_NAMES, ' ' ∈ s.data := by decide

theorem soldtest_street_names_no_comma :
    ∀ s ∈ SoldTest.STREET_NAMES, ',' ∉ s.data := by decide

/-- In the brokerage variant the address split always yields at least three
chunks (the street number, then at least two chunks from the two-word
street name onward), so the street-name column never raises. -/
theorem brokerage_streetNameField_isSome (c : Brokerage.Choices)
    (h : c.streetName ∈ Brokerage.STREET_NAMES) :
    (Brokerage.streetNameField c).isSome = true := by
  have hsplit :
      pySplit ' ' (Brokerage.addressChars c)
        = natChars c.streetNum
            :: pySplit ' ' (c.streetName.data ++ (", ".data ++ (c.city.data ++ ", GA 30000".data))) :=
    pySplit_append ' ' _ _ (space_not_mem_natChars c.streetNum)
  have hmem : ' ' ∈ c.streetName.data ++ (", ".data ++ (c.city.data ++ ", GA 30000".data)) :=
    List.mem_append_left _ (brokerage_street_names_have_space c.streetName h)
  have hlen := two_le_length_pySplit ' ' _ hmem
  rw [Brokerage.streetNameField, hsplit]
  cases hp : pySplit ' ' (c.streetName.data ++ (", ".data ++ (c.city.data ++ ", GA 30000".data))) with
  | nil => exact absurd hp (pySplit_ne_nil ' ' _)
  | cons w1 tail =>
    cases tail with
    | nil => rw [hp] at hlen; simp at hlen
    | cons w2 ws => simp

/-- In the sold-test variant, address.split(",")[0] is the street number
followed by the street name, which contains a space, so the second split
always has a second chunk and the street-name column never raises. -/
theorem soldtest_streetNameField_isSome (c : SoldTest.Choices)
    (h : c.streetName ∈ SoldTest.STREET_NAMES) :
    (SoldTest.streetNameField c).isSome = true := by
  have hshape :
      SoldTest.addressChars c
        = (natChars c.streetNum ++ ' ' :: c.streetName.data)
            ++ ',' :: (' ' :: (c.city.data ++ (", MA 021".data ++ natChars c.zipDraw))) := by
    simp [SoldTest.addressChars, List.append_assoc]
  have hnc : ',' ∉ natChars c.streetNum ++ ' ' :: c.streetName.data := by
    intro hmem
    rcases List.mem_append.mp hmem with h1 | h1
    · exact comma_not_mem_natChars c.streetNum h1
    · rcases List.mem_cons.mp h1 with h2 | h2
      · exact absurd h2 (by decide)
      · exact soldtest_street_names_no_comma c.streetName h h2
  have hsplit := pySplit_append ',' (natChars c.streetNum ++ ' ' :: c.streetName.data)
    (' ' :: (c.city.data ++ (", MA 021".data ++ natChars c.zipDraw))) hnc
  have hmax := pySplitMax1_append ' ' (natChars c.streetNum) c.streetName.data
    (space_not_mem_natChars c.streetNum)
  rw [SoldTest.streetNameField, hshape, hsplit]
  simp [hmax]

/-- C7: in both variants the generator is total on every valid draw: the
only operation of the record construction that could raise, the address
splitting behind the street-name columns, always succeeds, and every roster
sampled from is non-empty. -/
theorem c7_generator_total (today loopId : ℤ)
    (cA : Brokerage.Choices) (cB : SoldTest.Choices)
    (hA : cA.Valid) (hB : cB.Valid) :
    ((Brokerage.generate_record today loopId cA).isSome = true ∧
     (SoldTest.generate_record today loopId cB).isSome = true) ∧
    allRostersNonempty = true := by
  refine ⟨⟨?_, ?_⟩, by decide⟩
  · have hs := brokerage_streetNameField_isSome cA (by
      obtain ⟨-, -, -, -, -, -, -, -, -, -, -, -, -, -, -, -, hm⟩ := hA
      exact hm)
    rw [Brokerage.generate_record]
    cases he : Brokerage.streetNameField cA with
    | none => rw [he] at hs; simp at hs
    | some sn => simp
  · have hs := soldtest_streetNameField_isSome cB (by
      obtain ⟨-, -, -, -, -, -, -, -, -, -, -, -, -, -, -, -, -, -, hm, -⟩ := hB
      exact hm)
    rw [SoldTest.generate_record]
    cases he : SoldTest.streetNameField cB with
    | none => rw [he] at hs; simp at hs
    | some sn => simp

/-- C7 witness: the two sample runs are valid draws on which both
generators return a record. -/
theorem c7_generator_total_witness :
    cexA.Valid ∧ cexB.Valid ∧
    (((Brokerage.generate_record 0 300000000 cexA).isSome = true ∧
      (SoldTest.generate_record 0 300000000 cexB).isSome = true) ∧
     allRostersNonempty = true) :=
  ⟨by decide, by decide,
   c7_generator_total 0 300000000 cexA cexB (by decide) (by decide)⟩

end DotloopDemo
